import Mathlib

/-!
Verification of the performance classification and monitoring engine of
`react-native-droid-dex`.

The development shallowly embeds the two halves of the implementation:

* the Android module `DroidDexModule` (Kotlin): capability filtering,
  fallback scoring, result construction, the monitoring registry
  (`monitoringHandlers` / `monitoringRunnables`) and the body of the
  monitoring runnable;
* the JavaScript façade `src/index.ts`: the production-disabled short
  circuit with its default result, and the per-session listener maps
  backed by `NativeEventEmitter` subscriptions.

External collaborators (the `DroidDex` library calls, the React Native
event emitter, wall-clock time) are passed in as explicit parameters:
a library call that may throw is a function into `Option`/`Except`,
the clock is a `Nat` argument.  Fields of the produced maps that no
claim touches (the per-class metric sub-maps and, on the Kotlin side,
the timestamp) are not modelled.
-/

namespace DroidDex

/-- The five performance classes (`PerformanceClass` enum of droid-dex,
mirrored by `src/types.ts`). -/
inductive PerformanceClass
  | CPU
  | MEMORY
  | NETWORK
  | STORAGE
  | BATTERY
  deriving DecidableEq, Repr

/-- The four performance levels (`PerformanceLevel` enum of droid-dex,
mirrored by `src/types.ts`). -/
inductive PerformanceLevel
  | LOW
  | AVERAGE
  | HIGH
  | EXCELLENT
  deriving DecidableEq, Repr

/-- The device facts the Android module reads from the runtime:
`Runtime.getRuntime().maxMemory()`, `Runtime.getRuntime().availableProcessors()`,
`Build.VERSION.SDK_INT`, and the result of the
`ACCESS_NETWORK_STATE` permission check
(`ContextCompat.checkSelfPermission(...) == PERMISSION_GRANTED`). -/
structure DeviceInfo where
  maxMemory : Nat
  availableProcessors : Nat
  sdkInt : Nat
  hasNetworkStatePermission : Bool
  deriving DecidableEq, Repr

/-- `DroidDexModule.NETWORK_MONITORING_MIN_API`. -/
def NETWORK_MONITORING_MIN_API : Nat := 23

/-- `DroidDexModule.BATTERY_STATS_MIN_API`. -/
def BATTERY_STATS_MIN_API : Nat := 21

/-- Embeds `DroidDexModule.getFallbackPerformanceLevel`.  The `classes`
parameter is present but unread, exactly as in the source: the score is a
device-wide heuristic from max memory, processor count and SDK version,
mapped through the fixed level thresholds. -/
def getFallbackPerformanceLevel (classes : List PerformanceClass)
    (d : DeviceInfo) : PerformanceLevel :=
  let maxMemory := d.maxMemory
  let availableProcessors := d.availableProcessors
  let score : Nat := 0
  let score := score +
    (if maxMemory ≥ 4000000000 then 40
     else if maxMemory ≥ 2000000000 then 30
     else if maxMemory ≥ 1000000000 then 20
     else 10)
  let score := score +
    (if availableProcessors ≥ 8 then 30
     else if availableProcessors ≥ 4 then 25
     else if availableProcessors ≥ 2 then 15
     else 5)
  let score := score +
    (if d.sdkInt ≥ 30 then 30
     else if d.sdkInt ≥ 28 then 25
     else if d.sdkInt ≥ 26 then 20
     else if d.sdkInt ≥ 23 then 15
     else 10)
  if score ≥ 85 then PerformanceLevel.EXCELLENT
  else if score ≥ 65 then PerformanceLevel.HIGH
  else if score ≥ 45 then PerformanceLevel.AVERAGE
  else PerformanceLevel.LOW

/-- Embeds `DroidDexModule.getFallbackWeightedPerformanceLevel`: it drops
the weights and reuses the unweighted fallback. -/
def getFallbackWeightedPerformanceLevel
    (weightedClasses : List (PerformanceClass × Rat)) (d : DeviceInfo) :
    PerformanceLevel :=
  let classes := weightedClasses.map Prod.fst
  getFallbackPerformanceLevel classes d

/-- Spec-side definition (section 4.2, memory tier): available heap/RAM
tiers 10/20/30/40 at thresholds <1GB, 1-2GB, 2-4GB, >=4GB, a gigabyte
being the decimal 1e9 bytes used by the source constants. -/
def specMemoryTierPoints (availableRam : Nat) : Nat :=
  if availableRam < 1000000000 then 10
  else if availableRam < 2000000000 then 20
  else if availableRam < 4000000000 then 30
  else 40

/-- Spec-side definition (section 4.2, CPU tier): core-count tiers
5/15/25/30 at bands 1, 2-3, 4-7, >=8 cores. -/
def specCpuTierPoints (coreCount : Nat) : Nat :=
  if coreCount < 2 then 5
  else if coreCount < 4 then 15
  else if coreCount < 8 then 25
  else 30

/-- Spec-side definition (section 4.2, version tier): platform-version
tiers 10/15/20/25/30 over the five bands, oldest to newest
(<23, 23-25, 26-27, 28-29, >=30). -/
def specVersionTierPoints (platformVersion : Nat) : Nat :=
  if platformVersion < 23 then 10
  else if platformVersion < 26 then 15
  else if platformVersion < 28 then 20
  else if platformVersion < 30 then 25
  else 30

/-- Spec-side definition (section 4.2): the fixed threshold table from
combined score to level. -/
def specLevelOfScore (score : Nat) : PerformanceLevel :=
  if score ≥ 85 then PerformanceLevel.EXCELLENT
  else if score ≥ 65 then PerformanceLevel.HIGH
  else if score ≥ 45 then PerformanceLevel.AVERAGE
  else PerformanceLevel.LOW

/-- Spec-side definition (section 4.2, fallback path): sum the three tier
scores and map the sum through the threshold table. -/
def specFallbackLevel (availableRam coreCount platformVersion : Nat) :
    PerformanceLevel :=
  specLevelOfScore (specMemoryTierPoints availableRam +
    specCpuTierPoints coreCount + specVersionTierPoints platformVersion)

theorem specMemoryTierPoints_ge_form (m : Nat) :
    specMemoryTierPoints m =
      (if m ≥ 4000000000 then 40
       else if m ≥ 2000000000 then 30
       else if m ≥ 1000000000 then 20
       else 10) := by
  unfold specMemoryTierPoints
  repeat' split
  all_goals omega

theorem specCpuTierPoints_ge_form (c : Nat) :
    specCpuTierPoints c =
      (if c ≥ 8 then 30
       else if c ≥ 4 then 25
       else if c ≥ 2 then 15
       else 5) := by
  unfold specCpuTierPoints
  repeat' split
  all_goals omega

theorem specVersionTierPoints_ge_form (v : Nat) :
    specVersionTierPoints v =
      (if v ≥ 30 then 30
       else if v ≥ 28 then 25
       else if v ≥ 26 then 20
       else if v ≥ 23 then 15
       else 10) := by
  unfold specVersionTierPoints
  repeat' split
  all_goals omega

/-- Embeds the per-element `when` block shared verbatim by
`filterSupportedPerformanceClasses` and
`filterSupportedWeightedPerformanceClasses`: NETWORK needs
`SDK_INT >= NETWORK_MONITORING_MIN_API` and the granted
`ACCESS_NETWORK_STATE` permission, BATTERY needs
`SDK_INT >= BATTERY_STATS_MIN_API`, everything else is supported. -/
def classSupported (d : DeviceInfo) : PerformanceClass → Bool
  | PerformanceClass.NETWORK =>
      decide (d.sdkInt ≥ NETWORK_MONITORING_MIN_API) &&
        d.hasNetworkStatePermission
  | PerformanceClass.BATTERY =>
      decide (d.sdkInt ≥ BATTERY_STATS_MIN_API)
  | PerformanceClass.CPU => true
  | PerformanceClass.MEMORY => true
  | PerformanceClass.STORAGE => true

/-- Embeds `DroidDexModule.filterSupportedPerformanceClasses`. -/
def filterSupportedPerformanceClasses (d : DeviceInfo)
    (classes : List PerformanceClass) : List PerformanceClass :=
  classes.filter fun performanceClass =>
    match performanceClass with
    | PerformanceClass.NETWORK =>
        decide (d.sdkInt ≥ NETWORK_MONITORING_MIN_API) &&
          d.hasNetworkStatePermission
    | PerformanceClass.BATTERY =>
        decide (d.sdkInt ≥ BATTERY_STATS_MIN_API)
    | PerformanceClass.CPU => true
    | PerformanceClass.MEMORY => true
    | PerformanceClass.STORAGE => true

/-- Embeds `DroidDexModule.filterSupportedWeightedPerformanceClasses`
(the same `when` block keyed on the pair's class component). -/
def filterSupportedWeightedPerformanceClasses (d : DeviceInfo)
    (weightedClasses : List (PerformanceClass × Rat)) :
    List (PerformanceClass × Rat) :=
  weightedClasses.filter fun p =>
    match p.1 with
    | PerformanceClass.NETWORK =>
        decide (d.sdkInt ≥ NETWORK_MONITORING_MIN_API) &&
          d.hasNetworkStatePermission
    | PerformanceClass.BATTERY =>
        decide (d.sdkInt ≥ BATTERY_STATS_MIN_API)
    | PerformanceClass.CPU => true
    | PerformanceClass.MEMORY => true
    | PerformanceClass.STORAGE => true

/-- Kotlin `original - supported.toSet()` on lists: keep, in order, the
elements of `original` not occurring in `supported`. -/
def kminus (original supported : List PerformanceClass) :
    List PerformanceClass :=
  original.filter fun x => decide (x ∉ supported)

/-- The fields of the `WritableMap` built by
`DroidDexModule.createPerformanceResult` that the claims are about: the
level, the supported classes, and the unsupported classes.  The source
puts the `unsupportedClasses` key only when the difference is non-empty
and a reader treats the absent key as the empty list, so the embedding
stores the difference directly (the Kotlin difference is `[]` exactly
when the key is absent).  The metric sub-maps and the wall-clock
timestamp are not modelled. -/
structure KPerformanceResult where
  level : PerformanceLevel
  supportedClasses : List PerformanceClass
  unsupportedClasses : List PerformanceClass
  deriving DecidableEq, Repr

/-- Embeds `DroidDexModule.createPerformanceResult` (at its default,
`originalClasses = null`, the unsupported difference is skipped). -/
def createPerformanceResult (level : PerformanceLevel)
    (supportedClasses : List PerformanceClass)
    (originalClasses : Option (List PerformanceClass)) :
    KPerformanceResult :=
  { level := level
    supportedClasses := supportedClasses
    unsupportedClasses :=
      match originalClasses with
      | some original => kminus original supportedClasses
      | none => [] }

/-- The `promise.reject` codes of `DroidDexModule` reachable from the
one-shot evaluation entry points. -/
inductive ModuleError
  | NO_SUPPORTED_CLASSES
  | PERFORMANCE_ERROR
  deriving DecidableEq, Repr

/-- Embeds `DroidDexModule.getPerformanceLevel`.  `inited` is the
companion-object `isInitialized` flag (`ensureInitialized` throwing is
caught by the outer handler, which rejects with `PERFORMANCE_ERROR`);
`native` is the external `DroidDex.getPerformanceLevel` library call,
`none` standing for a thrown exception, which the source recovers from
with the fallback. -/
def droidDexGetPerformanceLevel (inited : Bool) (d : DeviceInfo)
    (native : List PerformanceClass → Option PerformanceLevel)
    (performanceClasses : List PerformanceClass) :
    Except ModuleError KPerformanceResult :=
  if !inited then Except.error ModuleError.PERFORMANCE_ERROR
  else
    let classes := performanceClasses
    let supportedClasses := filterSupportedPerformanceClasses d classes
    if supportedClasses.isEmpty then
      Except.error ModuleError.NO_SUPPORTED_CLASSES
    else
      let level :=
        match native supportedClasses with
        | some l => l
        | none => getFallbackPerformanceLevel supportedClasses d
      Except.ok (createPerformanceResult level supportedClasses
        (some classes))

/-- Embeds `DroidDexModule.parseWeightedPerformanceClasses`.  The source
loops over the bridge array turning each entry into a
`Pair(performanceClass, weight)` with no inspection of the weight value;
with the bridge entries already modelled as pairs this is the identity
(the `PerformanceClass.valueOf` name lookup is not modelled: inputs
carry well-formed class tags). -/
def parseWeightedPerformanceClasses
    (weightedParams : List (PerformanceClass × Rat)) :
    List (PerformanceClass × Rat) :=
  weightedParams

/-- Embeds `DroidDexModule.getWeightedPerformanceLevel`, with `native`
the external `DroidDex.getWeightedPerformanceLevel` call (`none` for a
thrown exception, recovered with the weighted fallback). -/
def droidDexGetWeightedPerformanceLevel (inited : Bool) (d : DeviceInfo)
    (native : List (PerformanceClass × Rat) → Option PerformanceLevel)
    (weightedParams : List (PerformanceClass × Rat)) :
    Except ModuleError KPerformanceResult :=
  if !inited then Except.error ModuleError.PERFORMANCE_ERROR
  else
    let weightedClasses := parseWeightedPerformanceClasses weightedParams
    let supportedWeightedClasses :=
      filterSupportedWeightedPerformanceClasses d weightedClasses
    if supportedWeightedClasses.isEmpty then
      Except.error ModuleError.NO_SUPPORTED_CLASSES
    else
      let level :=
        match native supportedWeightedClasses with
        | some l => l
        | none =>
            getFallbackWeightedPerformanceLevel supportedWeightedClasses d
      let performanceClasses := supportedWeightedClasses.map Prod.fst
      let originalClasses := weightedClasses.map Prod.fst
      Except.ok (createPerformanceResult level performanceClasses
        (some originalClasses))

/-- A native library call that always throws (used to exercise the
fallback path on concrete inputs). -/
def noNative : List PerformanceClass → Option PerformanceLevel :=
  fun _ => none

/-- A weighted native library call that always throws. -/
def noNativeW : List (PerformanceClass × Rat) → Option PerformanceLevel :=
  fun _ => none

/-- C1: the fallback scoring function awards exactly the spec's tier
points for memory (10/20/30/40), core count (5/15/25/30) and platform
version (10/15/20/25/30), sums them and maps the sum through the fixed
thresholds >=85 EXCELLENT, >=65 HIGH, >=45 AVERAGE, else LOW; in
particular availableRam=3GB, cores=4, version=29 scores 30+25+25=80 and
yields HIGH. -/
theorem fallback_level_matches_spec_tiers :
    (∀ (classes : List PerformanceClass) (d : DeviceInfo),
      getFallbackPerformanceLevel classes d =
        specFallbackLevel d.maxMemory d.availableProcessors d.sdkInt) ∧
    getFallbackPerformanceLevel []
        ⟨3000000000, 4, 29, false⟩ = PerformanceLevel.HIGH ∧
    specMemoryTierPoints 3000000000 + specCpuTierPoints 4 +
        specVersionTierPoints 29 = 80 := by
  refine ⟨?_, by decide, by decide⟩
  intro classes d
  simp only [getFallbackPerformanceLevel, specFallbackLevel,
    specLevelOfScore, specMemoryTierPoints_ge_form,
    specCpuTierPoints_ge_form, specVersionTierPoints_ge_form,
    Nat.zero_add]

theorem filterSupported_eq_filter_classSupported (d : DeviceInfo)
    (classes : List PerformanceClass) :
    filterSupportedPerformanceClasses d classes =
      classes.filter (classSupported d) :=
  List.filter_congr fun x _ => by cases x <;> rfl

theorem filterSupportedWeighted_eq_filter_classSupported (d : DeviceInfo)
    (weightedClasses : List (PerformanceClass × Rat)) :
    filterSupportedWeightedPerformanceClasses d weightedClasses =
      weightedClasses.filter fun p => classSupported d p.1 :=
  List.filter_congr fun p _ => by rcases p with ⟨c, w⟩; cases c <;> rfl

theorem map_fst_filter_on_fst (q : PerformanceClass → Bool)
    (weightedClasses : List (PerformanceClass × Rat)) :
    (weightedClasses.filter fun p => q p.1).map Prod.fst =
      (weightedClasses.map Prod.fst).filter q := by
  induction weightedClasses with
  | nil => rfl
  | cons hd tl ih =>
      cases hb : q hd.1 <;>
        simp [List.filter_cons, hb, ih]

theorem filterSupportedWeighted_map_fst (d : DeviceInfo)
    (weightedClasses : List (PerformanceClass × Rat)) :
    (filterSupportedWeightedPerformanceClasses d weightedClasses).map
        Prod.fst =
      filterSupportedPerformanceClasses d
        (weightedClasses.map Prod.fst) := by
  rw [filterSupported_eq_filter_classSupported,
    filterSupportedWeighted_eq_filter_classSupported,
    map_fst_filter_on_fst]

theorem kminus_of_filter (p : PerformanceClass → Bool)
    (l : List PerformanceClass) :
    kminus l (l.filter p) = l.filter fun x => !(p x) := by
  unfold kminus
  apply List.filter_congr
  intro x hx
  cases hb : p x <;> simp [List.mem_filter, hx, hb]

/-- C4: capability filtering marks CPU, MEMORY and STORAGE supported
unconditionally, NETWORK supported iff the platform version reaches the
network-monitoring threshold and the network-state permission is
granted, BATTERY supported iff the version reaches the battery-stats
threshold, and the supported and unsupported sequences are stable
(order-preserving sublists of the request). -/
theorem capability_filtering_rules :
    ∀ d : DeviceInfo,
      classSupported d PerformanceClass.CPU = true ∧
      classSupported d PerformanceClass.MEMORY = true ∧
      classSupported d PerformanceClass.STORAGE = true ∧
      (classSupported d PerformanceClass.NETWORK = true ↔
        NETWORK_MONITORING_MIN_API ≤ d.sdkInt ∧
          d.hasNetworkStatePermission = true) ∧
      (classSupported d PerformanceClass.BATTERY = true ↔
        BATTERY_STATS_MIN_API ≤ d.sdkInt) ∧
      (∀ classes : List PerformanceClass,
        filterSupportedPerformanceClasses d classes =
          classes.filter (classSupported d) ∧
        List.Sublist (filterSupportedPerformanceClasses d classes)
          classes ∧
        List.Sublist
          (kminus classes (filterSupportedPerformanceClasses d classes))
          classes) ∧
      (∀ weightedClasses : List (PerformanceClass × Rat),
        filterSupportedWeightedPerformanceClasses d weightedClasses =
          (weightedClasses.filter fun p => classSupported d p.1) ∧
        List.Sublist
          (filterSupportedWeightedPerformanceClasses d weightedClasses)
          weightedClasses) := by
  intro d
  refine ⟨rfl, rfl, rfl, ?_, ?_, ?_, ?_⟩
  · simp [classSupported]
  · simp [classSupported]
  · intro classes
    refine ⟨filterSupported_eq_filter_classSupported d classes, ?_, ?_⟩
    · exact List.filter_sublist classes
    · exact List.filter_sublist classes
  · intro weightedClasses
    exact ⟨filterSupportedWeighted_eq_filter_classSupported d
      weightedClasses, List.filter_sublist weightedClasses⟩

/-- C5: when capability filtering leaves zero supported classes, both
one-shot evaluations reject with `NO_SUPPORTED_CLASSES`, whatever the
native scorer would do (no scoring of the empty set is attempted). -/
theorem empty_supported_set_rejected :
    (∀ (d : DeviceInfo) (classes : List PerformanceClass),
      filterSupportedPerformanceClasses d classes = [] →
        ∀ native, droidDexGetPerformanceLevel true d native classes =
          Except.error ModuleError.NO_SUPPORTED_CLASSES) ∧
    (∀ (d : DeviceInfo) (weightedParams : List (PerformanceClass × Rat)),
      filterSupportedWeightedPerformanceClasses d weightedParams = [] →
        ∀ native,
          droidDexGetWeightedPerformanceLevel true d native
              weightedParams =
            Except.error ModuleError.NO_SUPPORTED_CLASSES) := by
  constructor
  · intro d classes h native
    simp [droidDexGetPerformanceLevel, h]
  · intro d weightedParams h native
    simp [droidDexGetWeightedPerformanceLevel,
      parseWeightedPerformanceClasses, h]

/-- Witness for C5: on a device at SDK 21 without the network permission,
requesting only NETWORK is rejected with `NO_SUPPORTED_CLASSES` on both
the unweighted and the weighted path. -/
theorem empty_supported_set_rejected_witness :
    droidDexGetPerformanceLevel true ⟨0, 0, 21, false⟩ noNative
        [PerformanceClass.NETWORK] =
      Except.error ModuleError.NO_SUPPORTED_CLASSES ∧
    droidDexGetWeightedPerformanceLevel true ⟨0, 0, 21, false⟩ noNativeW
        [(PerformanceClass.NETWORK, 1)] =
      Except.error ModuleError.NO_SUPPORTED_CLASSES :=
  ⟨empty_supported_set_rejected.1 ⟨0, 0, 21, false⟩
      [PerformanceClass.NETWORK] (by decide) noNative,
    empty_supported_set_rejected.2 ⟨0, 0, 21, false⟩
      [(PerformanceClass.NETWORK, 1)] (by decide) noNativeW⟩

theorem partition_shape (p : PerformanceClass → Bool)
    (classes : List PerformanceClass) :
    List.Perm (classes.filter p ++ kminus classes (classes.filter p))
        classes ∧
      (∀ c, ¬(c ∈ classes.filter p ∧ c ∈ kminus classes
        (classes.filter p))) ∧
      (classes.Nodup → ∀ c ∈ classes,
        List.count c (classes.filter p) +
          List.count c (kminus classes (classes.filter p)) = 1) := by
  rw [kminus_of_filter]
  refine ⟨List.filter_append_perm p classes, ?_, ?_⟩
  · rintro c ⟨h1, h2⟩
    rw [List.mem_filter] at h1 h2
    rw [h1.2] at h2
    exact absurd h2.2 (by decide)
  · intro hnd c hc
    have hperm := (List.filter_append_perm p classes).count_eq c
    rw [List.count_append] at hperm
    rw [hperm]
    exact List.count_eq_one_of_mem hnd hc

/-- C6: every successfully produced performance result partitions the
originally requested classes: supported and unsupported together are a
permutation of the request, no class is in both, and (for a
duplicate-free request) each requested class appears exactly once across
the two lists.  Stated for the unweighted and the weighted one-shot
evaluations. -/
theorem result_partitions_requested_classes :
    (∀ (inited : Bool) (d : DeviceInfo)
      (native : List PerformanceClass → Option PerformanceLevel)
      (classes : List PerformanceClass) (r : KPerformanceResult),
      droidDexGetPerformanceLevel inited d native classes =
          Except.ok r →
        List.Perm (r.supportedClasses ++ r.unsupportedClasses) classes ∧
        (∀ c, ¬(c ∈ r.supportedClasses ∧ c ∈ r.unsupportedClasses)) ∧
        (classes.Nodup → ∀ c ∈ classes,
          List.count c r.supportedClasses +
            List.count c r.unsupportedClasses = 1)) ∧
    (∀ (inited : Bool) (d : DeviceInfo)
      (native : List (PerformanceClass × Rat) → Option PerformanceLevel)
      (weightedParams : List (PerformanceClass × Rat))
      (r : KPerformanceResult),
      droidDexGetWeightedPerformanceLevel inited d native
          weightedParams = Except.ok r →
        List.Perm (r.supportedClasses ++ r.unsupportedClasses)
          (weightedParams.map Prod.fst) ∧
        (∀ c, ¬(c ∈ r.supportedClasses ∧ c ∈ r.unsupportedClasses)) ∧
        ((weightedParams.map Prod.fst).Nodup →
          ∀ c ∈ weightedParams.map Prod.fst,
            List.count c r.supportedClasses +
              List.count c r.unsupportedClasses = 1)) := by
  constructor
  · intro inited d native classes r h
    cases inited with
    | false => simp [droidDexGetPerformanceLevel] at h
    | true =>
        rw [droidDexGetPerformanceLevel] at h
        simp only [Bool.not_true, Bool.false_eq_true, if_false] at h
        by_cases hemp : (filterSupportedPerformanceClasses d
            classes).isEmpty
        · rw [if_pos hemp] at h
          exact absurd h (by simp)
        · rw [if_neg hemp] at h
          injection h with h
          subst h
          rw [filterSupported_eq_filter_classSupported]
          exact partition_shape (classSupported d) classes
  · intro inited d native weightedParams r h
    cases inited with
    | false => simp [droidDexGetWeightedPerformanceLevel] at h
    | true =>
        rw [droidDexGetWeightedPerformanceLevel] at h
        simp only [Bool.not_true, Bool.false_eq_true, if_false,
          parseWeightedPerformanceClasses] at h
        by_cases hemp : (filterSupportedWeightedPerformanceClasses d
            weightedParams).isEmpty
        · rw [if_pos hemp] at h
          exact absurd h (by simp)
        · rw [if_neg hemp] at h
          injection h with h
          subst h
          show List.Perm
              ((filterSupportedWeightedPerformanceClasses d
                weightedParams).map Prod.fst ++ _) _ ∧ _
          rw [createPerformanceResult]
          simp only [filterSupportedWeighted_map_fst,
            filterSupported_eq_filter_classSupported]
          exact partition_shape (classSupported d)
            (weightedParams.map Prod.fst)

/-- Witness for C6: a concrete run of both pipelines (SDK 22, no network
permission, native scorer throwing) requesting NETWORK and CPU; the
produced result has supported `[CPU]` and unsupported `[NETWORK]`. -/
theorem result_partitions_requested_classes_witness :
    (List.Perm ([PerformanceClass.CPU] ++ [PerformanceClass.NETWORK])
        [PerformanceClass.NETWORK, PerformanceClass.CPU] ∧
      (∀ c, ¬(c ∈ [PerformanceClass.CPU] ∧
        c ∈ [PerformanceClass.NETWORK])) ∧
      ([PerformanceClass.NETWORK, PerformanceClass.CPU].Nodup →
        ∀ c ∈ [PerformanceClass.NETWORK, PerformanceClass.CPU],
          List.count c [PerformanceClass.CPU] +
            List.count c [PerformanceClass.NETWORK] = 1)) :=
  result_partitions_requested_classes.1 true ⟨0, 0, 22, false⟩ noNative
    [PerformanceClass.NETWORK, PerformanceClass.CPU]
    { level := PerformanceLevel.LOW
      supportedClasses := [PerformanceClass.CPU]
      unsupportedClasses := [PerformanceClass.NETWORK] } (by rfl)

theorem isEmpty_map_fst (l : List (PerformanceClass × Rat)) :
    (l.map Prod.fst).isEmpty = l.isEmpty := by
  cases l <;> rfl

/-- C7: the fallback scoring path discards supplied per-class weights:
the weighted fallback equals the unweighted fallback on the same device,
any two weight assignments give the same level, and the whole weighted
one-shot evaluation on a throwing native scorer coincides with the
unweighted evaluation of the same classes (the fallback runs once for
the evaluation, not per class or per weight). -/
theorem fallback_ignores_weights :
    (∀ (d : DeviceInfo) (weightedClasses : List (PerformanceClass × Rat)),
      getFallbackWeightedPerformanceLevel weightedClasses d =
        getFallbackPerformanceLevel (weightedClasses.map Prod.fst) d) ∧
    (∀ (d : DeviceInfo)
      (weightedClasses weightedClasses' : List (PerformanceClass × Rat)),
      getFallbackWeightedPerformanceLevel weightedClasses d =
        getFallbackWeightedPerformanceLevel weightedClasses' d) ∧
    (∀ (d : DeviceInfo) (weightedParams : List (PerformanceClass × Rat)),
      droidDexGetWeightedPerformanceLevel true d noNativeW
          weightedParams =
        droidDexGetPerformanceLevel true d noNative
          (weightedParams.map Prod.fst)) := by
  refine ⟨fun d weightedClasses => rfl, fun d w w' => rfl, ?_⟩
  intro d weightedParams
  rw [droidDexGetWeightedPerformanceLevel, droidDexGetPerformanceLevel]
  simp only [Bool.not_true, Bool.false_eq_true, if_false,
    parseWeightedPerformanceClasses, noNative, noNativeW,
    getFallbackWeightedPerformanceLevel,
    ← filterSupportedWeighted_map_fst, isEmpty_map_fst]

/-- C3 counterexample: a weighted one-shot call carrying the
non-positive weight -1 is not rejected — it resolves with a performance
result (there is no weight validation anywhere on the call path). -/
theorem negative_weight_not_rejected :
    droidDexGetWeightedPerformanceLevel true ⟨3000000000, 4, 29, false⟩
        noNativeW [(PerformanceClass.CPU, -1)] =
      Except.ok
        { level := PerformanceLevel.HIGH
          supportedClasses := [PerformanceClass.CPU]
          unsupportedClasses := [] } ∧
    (-1 : Rat) ≤ 0 :=
  ⟨rfl, by norm_num⟩

/-- C3 amended: the weighted one-shot call performs no weight
validation; for an initialized module the only call-time rejection is
`NO_SUPPORTED_CLASSES` from capability filtering, whatever the supplied
weights. -/
theorem weighted_call_rejects_only_unsupported :
    ∀ (d : DeviceInfo)
      (native : List (PerformanceClass × Rat) → Option PerformanceLevel)
      (weightedParams : List (PerformanceClass × Rat)) (e : ModuleError),
      droidDexGetWeightedPerformanceLevel true d native weightedParams =
          Except.error e →
        e = ModuleError.NO_SUPPORTED_CLASSES := by
  intro d native weightedParams e h
  rw [droidDexGetWeightedPerformanceLevel] at h
  simp only [Bool.not_true, Bool.false_eq_true, if_false,
    parseWeightedPerformanceClasses] at h
  by_cases hemp : (filterSupportedWeightedPerformanceClasses d
      weightedParams).isEmpty
  · rw [if_pos hemp] at h
    injection h with h
    exact h.symm
  · rw [if_neg hemp] at h
    exact absurd h (by simp)

/-- Witness for the amended C3: at SDK 21 without the network
permission, a NETWORK-only weighted request (with a negative weight)
errors, and the error is `NO_SUPPORTED_CLASSES`. -/
theorem weighted_call_rejects_only_unsupported_witness :
    droidDexGetWeightedPerformanceLevel true ⟨0, 0, 21, false⟩ noNativeW
        [(PerformanceClass.NETWORK, -1)] =
      Except.error ModuleError.NO_SUPPORTED_CLASSES ∧
    ModuleError.NO_SUPPORTED_CLASSES =
      ModuleError.NO_SUPPORTED_CLASSES :=
  ⟨by rfl,
    weighted_call_rejects_only_unsupported ⟨0, 0, 21, false⟩ noNativeW
      [(PerformanceClass.NETWORK, -1)] ModuleError.NO_SUPPORTED_CLASSES
      (by rfl)⟩

/-- An event handed to `sendEvent`: a performance result on
`DroidDex_Performance_<id>` or an error message on
`DroidDex_Error_<id>`. -/
inductive EmittedEvent
  | performance (channel : String) (result : KPerformanceResult)
  | errorMessage (channel : String) (message : String)
  deriving DecidableEq, Repr

/-- What one execution of the monitoring runnable's `run` does: the
events it sends, and whether it re-posted itself
(`handler.postDelayed(this, intervalMs)`, carrying the delay) — `none`
when the runnable was not re-posted, so no further tick is scheduled. -/
structure TickEffect where
  events : List EmittedEvent
  rescheduledAfterMs : Option Int
  deriving DecidableEq, Repr

/-- Embeds the body of the anonymous `Runnable` built by
`DroidDexModule.startPerformanceMonitoring`.  `classes` and
`weightedClasses` are the two mutually exclusive session variants;
`native`/`nativeWeighted` are the external droid-dex calls, an
`Except.error` standing for a thrown exception.  The `try` block
computes the level, builds the result, sends the performance event and
re-posts the runnable; the `catch` block sends one error event and —
as in the source — does not re-post. -/
def monitoringRunnableRun (monitoringId : String)
    (classes : Option (List PerformanceClass))
    (weightedClasses : Option (List (PerformanceClass × Rat)))
    (intervalMs : Int)
    (native : List PerformanceClass → Except String PerformanceLevel)
    (nativeWeighted :
      List (PerformanceClass × Rat) → Except String PerformanceLevel) :
    TickEffect :=
  let levelOutcome :=
    match classes with
    | some cs => native cs
    | none => nativeWeighted (weightedClasses.getD [])
  match levelOutcome with
  | Except.ok level =>
      let performanceClasses :=
        classes.getD ((weightedClasses.getD []).map Prod.fst)
      let result := createPerformanceResult level performanceClasses
        (some performanceClasses)
      { events := [EmittedEvent.performance
          ("DroidDex_Performance_" ++ monitoringId) result]
        rescheduledAfterMs := some intervalMs }
  | Except.error msg =>
      { events := [EmittedEvent.errorMessage
          ("DroidDex_Error_" ++ monitoringId) msg]
        rescheduledAfterMs := none }

/-- A droid-dex call that throws (message "boom"). -/
def throwingNative : List PerformanceClass →
    Except String PerformanceLevel :=
  fun _ => Except.error "boom"

/-- A weighted droid-dex call that throws. -/
def throwingNativeW : List (PerformanceClass × Rat) →
    Except String PerformanceLevel :=
  fun _ => Except.error "boom"

/-- A droid-dex call that returns HIGH. -/
def highNative : List PerformanceClass →
    Except String PerformanceLevel :=
  fun _ => Except.ok PerformanceLevel.HIGH

/-- C2 (evaluation of the code at the failing input): a tick whose work
throws emits exactly one error event on the session's error channel and
no result event, but the runnable is not re-posted
(`rescheduledAfterMs = none`), so no further tick ever fires — whereas
a successful tick re-posts itself at the configured interval. -/
theorem tick_throw_publishes_error_but_stops_rescheduling :
    monitoringRunnableRun "s1" (some [PerformanceClass.CPU]) none 1000
        throwingNative throwingNativeW =
      { events := [EmittedEvent.errorMessage "DroidDex_Error_s1" "boom"]
        rescheduledAfterMs := none } ∧
    monitoringRunnableRun "s1" (some [PerformanceClass.CPU]) none 1000
        highNative throwingNativeW =
      { events := [EmittedEvent.performance "DroidDex_Performance_s1"
          { level := PerformanceLevel.HIGH
            supportedClasses := [PerformanceClass.CPU]
            unsupportedClasses := [] }]
        rescheduledAfterMs := some 1000 } :=
  ⟨rfl, rfl⟩

/-- The session registry of `DroidDexModule`: the key sets of the
`monitoringHandlers` and `monitoringRunnables` concurrent maps (the
`Handler`/`Runnable` values carry no information the claims need). -/
structure MonitoringRegistry where
  monitoringHandlers : List String
  monitoringRunnables : List String
  deriving DecidableEq, Repr

/-- Registry effect of `DroidDexModule.startPerformanceMonitoring`: put
the handler and the runnable under the fresh id (`put` replaces any
entry under the same key). -/
def registerMonitoring (s : MonitoringRegistry) (monitoringId : String) :
    MonitoringRegistry :=
  { monitoringHandlers := monitoringId ::
      s.monitoringHandlers.filter fun k => decide (k ≠ monitoringId)
    monitoringRunnables := monitoringId ::
      s.monitoringRunnables.filter fun k => decide (k ≠ monitoringId) }

/-- Embeds `DroidDexModule.stopMonitoring`: `remove` both map entries,
resolve `true` iff both removals found an entry. -/
def stopMonitoring (s : MonitoringRegistry) (monitoringId : String) :
    MonitoringRegistry × Bool :=
  let handlerFound := decide (monitoringId ∈ s.monitoringHandlers)
  let runnableFound := decide (monitoringId ∈ s.monitoringRunnables)
  ({ monitoringHandlers :=
       s.monitoringHandlers.filter fun k => decide (k ≠ monitoringId)
     monitoringRunnables :=
       s.monitoringRunnables.filter fun k => decide (k ≠ monitoringId) },
   handlerFound && runnableFound)

/-- Embeds `DroidDexModule.stopAllMonitoring`: clear both maps (the
`removeCallbacks` loop cancels the timers and has no registry effect). -/
def stopAllMonitoring : MonitoringRegistry → MonitoringRegistry :=
  fun _ => { monitoringHandlers := [], monitoringRunnables := [] }

/-- C9: `stopMonitoring` returns true iff a registered session with the
id existed (in particular after `registerMonitoring` of that id), is
idempotent — the second stop returns false and leaves the registry
unchanged — and after `stopAllMonitoring` the registry is empty and
every stop returns false. -/
theorem stop_monitoring_contract :
    ∀ (s : MonitoringRegistry) (monitoringId : String),
      ((stopMonitoring s monitoringId).2 = true ↔
        monitoringId ∈ s.monitoringHandlers ∧
          monitoringId ∈ s.monitoringRunnables) ∧
      (stopMonitoring (registerMonitoring s monitoringId)
        monitoringId).2 = true ∧
      (stopMonitoring (stopMonitoring s monitoringId).1
        monitoringId).2 = false ∧
      (stopMonitoring (stopMonitoring s monitoringId).1
        monitoringId).1 = (stopMonitoring s monitoringId).1 ∧
      (stopAllMonitoring s).monitoringHandlers = [] ∧
      (stopAllMonitoring s).monitoringRunnables = [] ∧
      (∀ anyId, (stopMonitoring (stopAllMonitoring s) anyId).2 =
        false) := by
  intro s monitoringId
  refine ⟨?_, ?_, ?_, ?_, rfl, rfl, ?_⟩
  · simp [stopMonitoring]
  · simp [stopMonitoring, registerMonitoring]
  · simp [stopMonitoring, List.mem_filter]
  · simp [stopMonitoring, List.filter_filter]
  · intro anyId
    simp [stopMonitoring, stopAllMonitoring]

/-- The `PerformanceResult` object built on the JavaScript side
(`src/index.ts`): level, the `metrics` object modelled by its key list
(`{}` is `[]`), the `Date.now()` timestamp, and the two class lists. -/
structure TsPerformanceResult where
  level : PerformanceLevel
  metricsKeys : List String
  timestamp : Nat
  supportedClasses : List PerformanceClass
  unsupportedClasses : List PerformanceClass
  deriving DecidableEq, Repr

/-- Embeds `getDefaultPerformanceResult` of `src/index.ts` (`now` is
`Date.now()`): level HIGH, empty metrics, no supported classes, and the
requested classes (or `[]` when absent) as unsupported. -/
def getDefaultPerformanceResult (now : Nat)
    (requestedClasses : Option (List PerformanceClass)) :
    TsPerformanceResult :=
  { level := PerformanceLevel.HIGH
    metricsKeys := []
    timestamp := now
    supportedClasses := []
    unsupportedClasses := requestedClasses.getD [] }

/-- How a JavaScript entry point concludes: a promise resolved locally
with a value, or a forward to the named method of the native module. -/
inductive TsCall (α : Type)
  | resolved (value : α)
  | nativeCall (method : String)
  deriving DecidableEq, Repr

/-- Embeds `getPerformanceLevel` of `src/index.ts`:
`isProductionDisabled || Platform.OS !== 'android'` short-circuits to
the default result, otherwise the call goes to the native module. -/
def tsGetPerformanceLevel (isProductionDisabled platformAndroid : Bool)
    (now : Nat) (performanceClasses : List PerformanceClass) :
    TsCall TsPerformanceResult :=
  if isProductionDisabled || !platformAndroid then
    TsCall.resolved (getDefaultPerformanceResult now
      (some performanceClasses))
  else
    TsCall.nativeCall "getPerformanceLevel"

/-- Embeds `getWeightedPerformanceLevel` of `src/index.ts`: the
requested classes are projected from the weighted list before the same
short circuit. -/
def tsGetWeightedPerformanceLevel
    (isProductionDisabled platformAndroid : Bool) (now : Nat)
    (weightedClasses : List (PerformanceClass × Rat)) :
    TsCall TsPerformanceResult :=
  let requestedClasses := weightedClasses.map Prod.fst
  if isProductionDisabled || !platformAndroid then
    TsCall.resolved (getDefaultPerformanceResult now
      (some requestedClasses))
  else
    TsCall.nativeCall "getWeightedPerformanceLevel"

/-- C10: with production-disabled mode set, or off Android, both
one-shot entry points resolve locally — the native module is never
invoked — with the fixed default result: level HIGH, empty metrics, no
supported classes, and the full requested class list unsupported. -/
theorem disabled_mode_returns_default_result :
    ∀ (isProductionDisabled platformAndroid : Bool) (now : Nat)
      (performanceClasses : List PerformanceClass)
      (weightedClasses : List (PerformanceClass × Rat)),
      (isProductionDisabled = true ∨ platformAndroid = false) →
        tsGetPerformanceLevel isProductionDisabled platformAndroid now
            performanceClasses =
          TsCall.resolved
            { level := PerformanceLevel.HIGH
              metricsKeys := []
              timestamp := now
              supportedClasses := []
              unsupportedClasses := performanceClasses } ∧
        tsGetWeightedPerformanceLevel isProductionDisabled
            platformAndroid now weightedClasses =
          TsCall.resolved
            { level := PerformanceLevel.HIGH
              metricsKeys := []
              timestamp := now
              supportedClasses := []
              unsupportedClasses := weightedClasses.map Prod.fst } := by
  intro isProductionDisabled platformAndroid now performanceClasses
    weightedClasses h
  rcases h with h | h <;> subst h <;>
    simp [tsGetPerformanceLevel, tsGetWeightedPerformanceLevel,
      getDefaultPerformanceResult]

/-- Witness for C10: disabled mode on Android, requesting CPU
unweighted and MEMORY (weight 2) weighted, at clock 17. -/
theorem disabled_mode_returns_default_result_witness :
    tsGetPerformanceLevel true true 17 [PerformanceClass.CPU] =
      TsCall.resolved
        { level := PerformanceLevel.HIGH
          metricsKeys := []
          timestamp := 17
          supportedClasses := []
          unsupportedClasses := [PerformanceClass.CPU] } ∧
    tsGetWeightedPerformanceLevel true true 17
        [(PerformanceClass.MEMORY, 2)] =
      TsCall.resolved
        { level := PerformanceLevel.HIGH
          metricsKeys := []
          timestamp := 17
          supportedClasses := []
          unsupportedClasses := [PerformanceClass.MEMORY] } :=
  disabled_mode_returns_default_result true true 17
    [PerformanceClass.CPU] [(PerformanceClass.MEMORY, 2)] (Or.inl rfl)

/-- JavaScript `Map.get`: value of the single slot under the key. -/
def mapGet (m : List (String × Nat)) (k : String) : Option Nat :=
  (m.find? fun p => decide (p.1 = k)).map Prod.snd

/-- JavaScript `Map.set`: single slot per key, last write wins. -/
def mapSet (m : List (String × Nat)) (k : String) (v : Nat) :
    List (String × Nat) :=
  (k, v) :: m.filter fun p => decide (p.1 ≠ k)

/-- JavaScript `Map.delete`. -/
def mapDelete (m : List (String × Nat)) (k : String) :
    List (String × Nat) :=
  m.filter fun p => decide (p.1 ≠ k)

/-- The module-level listener state of `src/index.ts`: the production
flag, the two single-slot maps (`performanceListeners`,
`errorListeners`, handlers identified by opaque tags), and the
`NativeEventEmitter` subscriptions added by `addPerformanceListener` /
`addErrorListener` — stored as the session id of the channel each
subscription listens on, in registration order.  Emitting an event on a
channel runs every subscription registered for it, in order; each
subscription's callback looks the session id up in the map at dispatch
time and invokes the stored handler if present. -/
structure ListenerState where
  isProductionDisabled : Bool
  performanceListeners : List (String × Nat)
  errorListeners : List (String × Nat)
  perfSubscriptions : List String
  errSubscriptions : List String
  deriving DecidableEq, Repr

/-- Embeds `addPerformanceListener` of `src/index.ts`
(`platformAndroid` folds in the `Platform.OS === 'android'` and
`eventEmitter` checks, which coincide): store the listener in the map,
and on the enabled Android path also add a fresh emitter subscription
for the session's channel. -/
def addPerformanceListener (platformAndroid : Bool) (s : ListenerState)
    (monitoringId : String) (listener : Nat) : ListenerState :=
  if s.isProductionDisabled || !platformAndroid then
    { s with performanceListeners :=
        mapSet s.performanceListeners monitoringId listener }
  else
    { s with
      performanceListeners :=
        mapSet s.performanceListeners monitoringId listener
      perfSubscriptions := s.perfSubscriptions ++ [monitoringId] }

/-- Embeds `removePerformanceListener` of `src/index.ts`: delete the map
entry; on the enabled Android path also `removeAllListeners` of the
session's channel. -/
def removePerformanceListener (platformAndroid : Bool)
    (s : ListenerState) (monitoringId : String) : ListenerState :=
  let s1 := { s with
    performanceListeners := mapDelete s.performanceListeners monitoringId }
  if !platformAndroid || s.isProductionDisabled then s1
  else
    { s1 with perfSubscriptions :=
        s1.perfSubscriptions.filter fun k => decide (k ≠ monitoringId) }

/-- Embeds `addErrorListener` of `src/index.ts` (same shape on the
error side). -/
def addErrorListener (platformAndroid : Bool) (s : ListenerState)
    (monitoringId : String) (listener : Nat) : ListenerState :=
  if s.isProductionDisabled || !platformAndroid then
    { s with errorListeners :=
        mapSet s.errorListeners monitoringId listener }
  else
    { s with
      errorListeners := mapSet s.errorListeners monitoringId listener
      errSubscriptions := s.errSubscriptions ++ [monitoringId] }

/-- Embeds `removeErrorListener` of `src/index.ts`. -/
def removeErrorListener (platformAndroid : Bool) (s : ListenerState)
    (monitoringId : String) : ListenerState :=
  let s1 := { s with
    errorListeners := mapDelete s.errorListeners monitoringId }
  if !platformAndroid || s.isProductionDisabled then s1
  else
    { s1 with errSubscriptions :=
        s1.errSubscriptions.filter fun k => decide (k ≠ monitoringId) }

/-- The handler tags invoked, in order, when one event is emitted on
`DroidDex_Performance_<monitoringId>`: every subscription for the
channel fires, and each one invokes the handler currently stored in the
map for that id (skipping when the map has none). -/
def dispatchPerformanceEvent (s : ListenerState) (monitoringId : String) :
    List Nat :=
  (s.perfSubscriptions.filter fun k => decide (k = monitoringId)).filterMap
    fun _ => mapGet s.performanceListeners monitoringId

/-- Same for one event on `DroidDex_Error_<monitoringId>`. -/
def dispatchErrorEvent (s : ListenerState) (monitoringId : String) :
    List Nat :=
  (s.errSubscriptions.filter fun k => decide (k = monitoringId)).filterMap
    fun _ => mapGet s.errorListeners monitoringId

/-- The state before any registration, production mode enabled. -/
def emptyListenerState : ListenerState :=
  { isProductionDisabled := false
    performanceListeners := []
    errorListeners := []
    perfSubscriptions := []
    errSubscriptions := [] }

/-- C8 counterexample: on the Android path, registering handler 1 and
then handler 2 for the same session id leaves only handler 2 in the
map, but one dispatched event invokes it twice (once per accumulated
emitter subscription), not exactly once. -/
theorem double_registration_double_invocation :
    dispatchPerformanceEvent
        (addPerformanceListener true
          (addPerformanceListener true emptyListenerState "m" 1) "m" 2)
        "m" = [2, 2] ∧
    ([2, 2] : List Nat).length ≠ 1 :=
  ⟨rfl, by decide⟩

theorem mapGet_mapSet_self (m : List (String × Nat)) (k : String)
    (v : Nat) : mapGet (mapSet m k v) k = some v := by
  unfold mapGet mapSet
  rw [List.find?_cons_of_pos _ (by simp)]
  rfl

theorem mapGet_mapDelete_self (m : List (String × Nat)) (k : String) :
    mapGet (mapDelete m k) k = none := by
  unfold mapGet mapDelete
  rw [List.find?_eq_none.mpr]
  · rfl
  · intro x hx
    rw [List.mem_filter] at hx
    simpa using hx.2

theorem filterMap_const_some (xs : List String) (v : Nat) :
    (xs.filterMap fun _ => some v) = List.replicate xs.length v := by
  induction xs with
  | nil => rfl
  | cons hd tl ih => simp [List.filterMap_cons, ih, List.replicate_succ]

theorem filterMap_const_none (xs : List String) :
    (xs.filterMap fun _ => (none : Option Nat)) = [] := by
  induction xs with
  | nil => rfl
  | cons hd tl ih => simp [List.filterMap_cons, ih]

/-- C8 amended: registration keeps at most one handler per session id
with the last registration winning, and unregistering removes it; but a
single dispatched event invokes the most recently registered handler
once per emitter subscription accumulated for that id — one more than
before each registration on the enabled Android path — rather than
exactly once, and after removal a dispatch invokes nothing.  Stated for
the result side and the error side. -/
theorem listener_single_slot_dispatch :
    ∀ (s : ListenerState) (monitoringId : String) (listener : Nat)
      (platformAndroid : Bool),
      mapGet (addPerformanceListener platformAndroid s monitoringId
          listener).performanceListeners monitoringId = some listener ∧
      (s.isProductionDisabled = false → platformAndroid = true →
        dispatchPerformanceEvent
            (addPerformanceListener platformAndroid s monitoringId
              listener) monitoringId =
          List.replicate
            ((s.perfSubscriptions.filter fun k =>
              decide (k = monitoringId)).length + 1) listener) ∧
      mapGet (removePerformanceListener platformAndroid s
          monitoringId).performanceListeners monitoringId = none ∧
      dispatchPerformanceEvent
          (removePerformanceListener platformAndroid s monitoringId)
          monitoringId = [] ∧
      mapGet (addErrorListener platformAndroid s monitoringId
          listener).errorListeners monitoringId = some listener ∧
      (s.isProductionDisabled = false → platformAndroid = true →
        dispatchErrorEvent
            (addErrorListener platformAndroid s monitoringId listener)
            monitoringId =
          List.replicate
            ((s.errSubscriptions.filter fun k =>
              decide (k = monitoringId)).length + 1) listener) ∧
      mapGet (removeErrorListener platformAndroid s
          monitoringId).errorListeners monitoringId = none ∧
      dispatchErrorEvent
          (removeErrorListener platformAndroid s monitoringId)
          monitoringId = [] := by
  intro s monitoringId listener platformAndroid
  refine ⟨?_, ?_, ?_, ?_, ?_, ?_, ?_, ?_⟩
  · unfold addPerformanceListener
    split <;> exact mapGet_mapSet_self _ _ _
  · intro hdis hand
    subst hand
    simp [addPerformanceListener, hdis, dispatchPerformanceEvent,
      mapGet_mapSet_self, List.filter_append, filterMap_const_some]
    rw [← List.replicate_succ', List.replicate_succ]
  · unfold removePerformanceListener
    split <;> exact mapGet_mapDelete_self _ _
  · unfold removePerformanceListener dispatchPerformanceEvent
    split <;> simp [mapGet_mapDelete_self, filterMap_const_none]
  · unfold addErrorListener
    split <;> exact mapGet_mapSet_self _ _ _
  · intro hdis hand
    subst hand
    simp [addErrorListener, hdis, dispatchErrorEvent,
      mapGet_mapSet_self, List.filter_append, filterMap_const_some]
    rw [← List.replicate_succ', List.replicate_succ]
  · unfold removeErrorListener
    split <;> exact mapGet_mapDelete_self _ _
  · unfold removeErrorListener dispatchErrorEvent
    split <;> simp [mapGet_mapDelete_self, filterMap_const_none]

/-- Witness for the amended C8: one registration of handler 5 for
session "m" on the enabled Android path; a dispatch invokes it once
(replicate of length 0 + 1). -/
theorem listener_single_slot_dispatch_witness :
    mapGet (addPerformanceListener true emptyListenerState "m"
        5).performanceListeners "m" = some 5 ∧
    dispatchPerformanceEvent
        (addPerformanceListener true emptyListenerState "m" 5) "m" =
      List.replicate 1 5 :=
  ⟨(listener_single_slot_dispatch emptyListenerState "m" 5 true).1,
    (listener_single_slot_dispatch emptyListenerState "m" 5
      true).2.1 rfl rfl⟩

end DroidDex
